import Mathlib

/-!
Verification of the Flight Records Store (`main.py`): a sqlite3-backed
console application managing pilots, destinations, flights and
pilot-to-flight assignments.

The store state is modelled as explicit lists of rows; each operation of the
`DBOperations` class becomes a pure function from a state (plus the values the
CLI would have prompted for) to a new state together with the list of outcome
messages it prints.  Display-only output (table listings, prompts) is omitted
from the message lists; only outcome messages (success / error / not-found)
are kept, with their texts taken verbatim from the source.

Engine semantics embedded here (checked against sqlite3 / CPython behaviour):
* both CHECK constraints of the `flights` table are active (SQLite accepts the
  table definition even though a comma before the first CHECK is missing, and
  enforces the checks on INSERT and on UPDATE);
* the declared FOREIGN KEY clauses are NOT enforced: the program never issues
  `PRAGMA foreign_keys = ON`, and sqlite3's default leaves enforcement off;
* `INTEGER PRIMARY KEY` columns are assigned as one more than the largest
  existing id (1 for an empty table);
* `cursor.rowcount` after UPDATE/DELETE counts the matched rows;
* CPython's `strptime` with format `%Y-%m-%d %H:%M` requires exactly four
  digits for `%Y` but accepts one or two digits for `%m`/`%d`/`%H`/`%M`,
  accepts a run of whitespace for the literal space, requires the whole string
  to be consumed, and then validates the calendar date (leap years included);
  digits are modelled as ASCII digits;
* `strftime("%Y-%m-%d %H:%M:%S")` zero-pads all fields to two digits except
  the year, which is rendered unpadded (so years below 1000 lose their
  leading zeros).
-/

namespace FM

/-- A timestamp as produced by `datetime.datetime.strptime` with format
`%Y-%m-%d %H:%M` (the seconds of such a value are zero and kept separately). -/
structure PyDateTime where
  year : Nat
  month : Nat
  day : Nat
  hour : Nat
  minute : Nat
deriving DecidableEq, Repr

/-- Numeric value of an ASCII digit character. -/
def digitVal (c : Char) : Nat := c.toNat - 48

/-- Exactly four ASCII digits, as CPython's regex for `%Y`. -/
def take4Digits : List Char → Option (Nat × List Char)
  | a :: b :: c :: d :: rest =>
    if a.isDigit && b.isDigit && c.isDigit && d.isDigit then
      some (1000 * digitVal a + 100 * digitVal b + 10 * digitVal c + digitVal d, rest)
    else none
  | _ => none

/-- One or two ASCII digits: CPython's regexes for `%m`/`%d`/`%H`/`%M` accept
one or two digits (value bounds are checked afterwards; a two-digit read whose
value is out of range makes the overall match fail, exactly as the regex
alternation followed by a failing literal does). -/
def take1or2Digits : List Char → Option (Nat × List Char)
  | a :: b :: rest =>
    if a.isDigit then
      if b.isDigit then some (10 * digitVal a + digitVal b, rest)
      else some (digitVal a, b :: rest)
    else none
  | [a] => if a.isDigit then some (digitVal a, []) else none
  | [] => none

/-- A literal character of the format. -/
def lit (c : Char) : List Char → Option (List Char)
  | x :: rest => if x = c then some rest else none
  | [] => none

/-- The literal space of the format matches a run of whitespace (`\s+`). -/
def takeWs : List Char → Option (List Char)
  | x :: rest => if x.isWhitespace then some (rest.dropWhile Char.isWhitespace) else none
  | [] => none

/-- Gregorian leap-year rule, as `datetime`. -/
def isLeapYear (y : Nat) : Bool := y % 4 == 0 && (y % 100 != 0 || y % 400 == 0)

/-- Days in a month, as `datetime`. -/
def daysInMonth (y m : Nat) : Nat :=
  if m = 2 then (if isLeapYear y then 29 else 28)
  else if m = 4 ∨ m = 6 ∨ m = 9 ∨ m = 11 then 30
  else 31

/-- `datetime.datetime.strptime(s, "%Y-%m-%d %H:%M")`: `none` models the
`ValueError` path (either the regex does not match, data remains unconverted,
or the calendar validation of the `datetime` constructor fails). -/
def strptimeYmdHm (s : String) : Option PyDateTime := do
  let (y, cs) ← take4Digits s.toList
  let cs ← lit '-' cs
  let (m, cs) ← take1or2Digits cs
  let cs ← lit '-' cs
  let (d, cs) ← take1or2Digits cs
  let cs ← takeWs cs
  let (h, cs) ← take1or2Digits cs
  let cs ← lit ':' cs
  let (mi, cs) ← take1or2Digits cs
  if cs = [] ∧ 1 ≤ y ∧ 1 ≤ m ∧ m ≤ 12 ∧ 1 ≤ d ∧ d ≤ daysInMonth y m ∧ h ≤ 23 ∧ mi ≤ 59 then
    pure ⟨y, m, d, h, mi⟩
  else none

/-- The ASCII digit character for `n < 10`. -/
def dChar (n : Nat) : Char := Char.ofNat (48 + n)

/-- `%02d` (faithful for `n < 100`, which covers every field it is used on). -/
def pad2 (n : Nat) : String := String.mk [dChar (n / 10), dChar (n % 10)]

/-- `%Y` as rendered by `strftime` on this platform: the year unpadded
(faithful for `1 ≤ y ≤ 9999`, the `datetime` year range). -/
def yearStr (y : Nat) : String :=
  if y < 10 then String.mk [dChar y]
  else if y < 100 then String.mk [dChar (y / 10), dChar (y % 10)]
  else if y < 1000 then String.mk [dChar (y / 100), dChar (y / 10 % 10), dChar (y % 10)]
  else String.mk [dChar (y / 1000), dChar (y / 100 % 10), dChar (y / 10 % 10), dChar (y % 10)]

/-- `dt.strftime("%Y-%m-%d %H:%M:%S")` where `sec` is the seconds field of the
underlying datetime (0 for values coming out of `strptime` with `%H:%M`). -/
def strftimeYmdHms (dt : PyDateTime) (sec : Nat) : String :=
  yearStr dt.year ++ "-" ++ pad2 dt.month ++ "-" ++ pad2 dt.day ++ " " ++
    pad2 dt.hour ++ ":" ++ pad2 dt.minute ++ ":" ++ pad2 sec

/-- The zero-padded input format `YYYY-MM-DD HH:MM` of a timestamp (used to
state the normalisation claims; not an operation of the program). -/
def fmtYmdHm (dt : PyDateTime) : String :=
  yearStr dt.year ++ "-" ++ pad2 dt.month ++ "-" ++ pad2 dt.day ++ " " ++
    pad2 dt.hour ++ ":" ++ pad2 dt.minute

/-- A row of the `pilots` table.  The schema allows NULL `years_experience`,
but every code path that inserts a pilot supplies it, so it is kept plain. -/
structure Pilot where
  pilot_id : Int
  name : String
  license_id : String
  years_experience : Int
deriving DecidableEq, Repr

/-- A row of the `destinations` table. -/
structure Destination where
  destination_id : Int
  city : String
  country : String
  airport_code : String
deriving DecidableEq, Repr

/-- A row of the `flights` table. -/
structure Flight where
  flight_id : Int
  flight_number : String
  origin_id : Int
  destination_id : Int
  departure_time : String
  status : String
deriving DecidableEq, Repr

/-- A row of the `pilot_assignments` table. -/
structure Assignment where
  assignment_id : Int
  flight_id : Int
  pilot_id : Int
  assignment_date : String
deriving DecidableEq, Repr

/-- The whole persisted state: the four tables. -/
structure DB where
  pilots : List Pilot
  destinations : List Destination
  flights : List Flight
  assignments : List Assignment
deriving DecidableEq, Repr

/-- The state right after table creation. -/
def emptyDB : DB := ⟨[], [], [], []⟩

/-- SQLite's rowid assignment for `INTEGER PRIMARY KEY`: one more than the
largest id in use (1 for an empty table). -/
def nextId (ids : List Int) : Int := ids.foldl max 0 + 1

/-- The status values allowed by the CHECK constraint of `flights`. -/
def allowedStatuses : List String :=
  ["Scheduled", "Cancelled", "Departed", "Arrived", "Delayed", "Boarding", "In Flight"]

/-- The two CHECK constraints of the `flights` table, evaluated on a row's
status/origin/destination values. -/
def flightChecks (status : String) (origin_id destination_id : Int) : Bool :=
  allowedStatuses.contains status && origin_id != destination_id

/-- `INSERT INTO pilots ...`: enforces `UNIQUE(license_id)`. -/
def sql_insert_pilot (db : DB) (name license_id : String) (years : Int) : Except String DB :=
  if db.pilots.any (fun p => p.license_id == license_id) then
    Except.error "UNIQUE constraint failed: pilots.license_id"
  else
    Except.ok { db with pilots := db.pilots ++
      [⟨nextId (db.pilots.map Pilot.pilot_id), name, license_id, years⟩] }

/-- `INSERT INTO destinations ...`: enforces `UNIQUE(city, airport_code)`. -/
def sql_insert_destination (db : DB) (city country airport_code : String) : Except String DB :=
  if db.destinations.any (fun d => d.city == city && d.airport_code == airport_code) then
    Except.error "UNIQUE constraint failed: destinations.city, destinations.airport_code"
  else
    Except.ok { db with destinations := db.destinations ++
      [⟨nextId (db.destinations.map Destination.destination_id), city, country, airport_code⟩] }

/-- `INSERT INTO flights ...`: enforces the two CHECK constraints.  The
declared FOREIGN KEY clauses are deliberately absent here: sqlite3 leaves
foreign-key enforcement off unless `PRAGMA foreign_keys = ON` is issued, which
the program never does, so inserts referencing unknown destination ids
succeed. -/
def sql_insert_flight (db : DB) (flight_number : String) (origin_id destination_id : Int)
    (departure_time status : String) : Except String DB :=
  if !allowedStatuses.contains status then
    Except.error "CHECK constraint failed: status IN allowed set"
  else if origin_id = destination_id then
    Except.error "CHECK constraint failed: origin_id <> destination_id"
  else
    Except.ok { db with flights := db.flights ++
      [⟨nextId (db.flights.map Flight.flight_id), flight_number, origin_id, destination_id,
        departure_time, status⟩] }

/-- `INSERT INTO pilot_assignments ...`: enforces `UNIQUE(flight_id, pilot_id)`;
foreign keys are unenforced as above. -/
def sql_insert_assignment (db : DB) (flight_id pilot_id : Int) (assignment_date : String) :
    Except String DB :=
  if db.assignments.any (fun a => a.flight_id == flight_id && a.pilot_id == pilot_id) then
    Except.error "UNIQUE constraint failed: pilot_assignments.flight_id, pilot_assignments.pilot_id"
  else
    Except.ok { db with assignments := db.assignments ++
      [⟨nextId (db.assignments.map Assignment.assignment_id), flight_id, pilot_id,
        assignment_date⟩] }

/-- `DBOperations.add_new_flight`, after the CLI has collected the inputs:
validates the departure string, normalises it to seconds precision, and
inserts with the literal status `"Scheduled"`. -/
def add_new_flight (db : DB) (flight_num : String) (origin_id dest_id : Int)
    (departure : String) : DB × List String :=
  match strptimeYmdHm departure with
  | none => (db, ["Invalid datetime format. Please use 'YYYY-MM-DD HH:MM'"])
  | some dt =>
    match sql_insert_flight db flight_num origin_id dest_id (strftimeYmdHms dt 0) "Scheduled" with
    | Except.error e => (db, ["Error adding flight: " ++ e])
    | Except.ok db2 => (db2, ["Flight added successfully"])

/-- The field choice of `DBOperations.update_flight_info`. -/
inductive FlightField where
  | departureTime (new_time : String)
  | statusField (new_status : String)

/-- `DBOperations.update_flight_info`: updates every flight row whose
`flight_number` equals the given one; `rowcount = 0` yields "Flight not
found"; a CHECK violation on an updated row aborts with an error and no
commit. -/
def update_flight_info (db : DB) (flight_num : String) (choice : FlightField) :
    DB × List String :=
  match choice with
  | FlightField.departureTime new_time =>
    match strptimeYmdHm new_time with
    | none => (db, ["Invalid datetime format. Please use 'YYYY-MM-DD HH:MM'"])
    | some dt =>
      let nt := strftimeYmdHms dt 0
      let matched := db.flights.filter (fun f => f.flight_number == flight_num)
      if matched.all (fun f => flightChecks f.status f.origin_id f.destination_id) then
        if matched.length > 0 then
          ({ db with flights := db.flights.map (fun f =>
              if f.flight_number == flight_num then { f with departure_time := nt } else f) },
           ["Flight updated successfully"])
        else (db, ["Flight not found"])
      else (db, ["Error updating flight: CHECK constraint failed"])
  | FlightField.statusField new_status =>
    let matched := db.flights.filter (fun f => f.flight_number == flight_num)
    if matched.all (fun f => flightChecks new_status f.origin_id f.destination_id) then
      if matched.length > 0 then
        ({ db with flights := db.flights.map (fun f =>
            if f.flight_number == flight_num then { f with status := new_status } else f) },
         ["Flight updated successfully"])
      else (db, ["Flight not found"])
    else (db, ["Error updating flight: CHECK constraint failed"])

/-- `DBOperations.validate_flight_id_exists`. -/
def validate_flight_id_exists (db : DB) (flight_id : Int) : Bool :=
  db.flights.any (fun f => f.flight_id == flight_id)

/-- `DBOperations.validate_pilot_exists`. -/
def validate_pilot_exists (db : DB) (pilot_id : Int) : Bool :=
  db.pilots.any (fun p => p.pilot_id == pilot_id)

/-- Python's `str.strip()` (ASCII-whitespace approximation, structurally
recursive so that it evaluates inside the kernel). -/
def pyStrip (s : String) : String :=
  String.mk (((s.toList.dropWhile Char.isWhitespace).reverse.dropWhile
    Char.isWhitespace).reverse)

/-- `DBOperations.assign_pilot`: validates both foreign keys up front, then
either defaults a blank date to `datetime.now()` rendered with seconds, or
parses and normalises the given date, and finally inserts the assignment.
`now`/`nowSec` model the wall clock at the moment of the call. -/
def assign_pilot (db : DB) (flight_id pilot_id : Int) (assignment_date : String)
    (now : PyDateTime) (nowSec : Nat) : DB × List String :=
  if !validate_flight_id_exists db flight_id then
    (db, ["Error: Flight with ID " ++ toString flight_id ++ " does not exist"])
  else if !validate_pilot_exists db pilot_id then
    (db, ["Error: Pilot with ID " ++ toString pilot_id ++ " does not exist"])
  else
    let stripped := pyStrip assignment_date
    let ins : String → DB × List String := fun date =>
      match sql_insert_assignment db flight_id pilot_id date with
      | Except.error e => (db, ["Error assigning pilot: " ++ e])
      | Except.ok db2 => (db2, ["Pilot assigned successfully"])
    if stripped = "" then ins (strftimeYmdHms now nowSec)
    else
      match strptimeYmdHm stripped with
      | none => (db, ["Invalid datetime format. Please use 'YYYY-MM-DD HH:MM'"])
      | some dt => ins (strftimeYmdHms dt 0)

/-- The sub-menu choice of `DBOperations.manage_destinations`.  An update
carries the raw prompt answers: an empty string means "skip this field". -/
inductive DestAction where
  | view
  | add (city country airport_code : String)
  | update (dest_id : Int) (city country airport_code : String)

/-- One destination row after a partial update. -/
def destRowUpdate (city country code : String) (d : Destination) : Destination :=
  { d with
    city := if city ≠ "" then city else d.city,
    country := if country ≠ "" then country else d.country,
    airport_code := if code ≠ "" then code else d.airport_code }

/-- `UNIQUE(city, airport_code)` over a whole table. -/
def destTableUnique : List Destination → Bool
  | [] => true
  | d :: rest =>
    !rest.any (fun e => e.city == d.city && e.airport_code == d.airport_code) &&
      destTableUnique rest

/-- `DBOperations.manage_destinations`.  With no fields supplied the update
branch executes no statement and prints nothing. -/
def manage_destinations (db : DB) (act : DestAction) : DB × List String :=
  match act with
  | DestAction.view => (db, [])
  | DestAction.add city country code =>
    match sql_insert_destination db city country code with
    | Except.error e => (db, ["Error managing destinations: " ++ e])
    | Except.ok db2 => (db2, ["Destination added successfully"])
  | DestAction.update dest_id city country code =>
    if city == "" && country == "" && code == "" then (db, [])
    else
      let updated := db.destinations.map (fun d =>
        if d.destination_id == dest_id then destRowUpdate city country code d else d)
      if destTableUnique updated then
        ({ db with destinations := updated }, ["Destination updated successfully"])
      else (db, ["Error managing destinations: UNIQUE constraint failed: destinations.city, destinations.airport_code"])

/-- `int(s)` as applied to the years-of-experience answer (approximated by
Lean's integer literal parsing of the trimmed string). -/
def pyToInt (s : String) : Option Int := s.trim.toInt?

/-- The sub-menu choice of `DBOperations.manage_pilots`. -/
inductive PilotAction where
  | view
  | add (name license_id : String) (years : Int)
  | update (pilot_id : Int) (name license_id years : String)
  | delete (pilot_id : Int)

/-- `UNIQUE(license_id)` over a whole table. -/
def pilotTableUnique : List Pilot → Bool
  | [] => true
  | p :: rest => !rest.any (fun q => q.license_id == p.license_id) && pilotTableUnique rest

/-- One pilot row after a partial update. -/
def pilotRowUpdate (name license : String) (years : Option Int) (p : Pilot) : Pilot :=
  { p with
    name := if name ≠ "" then name else p.name,
    license_id := if license ≠ "" then license else p.license_id,
    years_experience := years.getD p.years_experience }

/-- `DBOperations.manage_pilots`: view, add (license uniqueness enforced),
partial update (empty answers skip fields; no field at all executes nothing
and prints nothing), and the guarded delete that first counts the pilot's
assignments and refuses while any exist. -/
def manage_pilots (db : DB) (act : PilotAction) : DB × List String :=
  match act with
  | PilotAction.view => (db, [])
  | PilotAction.add name license years =>
    match sql_insert_pilot db name license years with
    | Except.error e => (db, ["Error managing pilots: " ++ e])
    | Except.ok db2 => (db2, ["Pilot added successfully"])
  | PilotAction.update pilot_id name license years =>
    if name == "" && license == "" && years == "" then (db, [])
    else
      match (if years = "" then some none else (pyToInt years).map some) with
      | none => (db, ["Error managing pilots: invalid literal for int()"])
      | some yearsVal =>
        let updated := db.pilots.map (fun p =>
          if p.pilot_id == pilot_id then pilotRowUpdate name license yearsVal p else p)
        if pilotTableUnique updated then
          ({ db with pilots := updated }, ["Pilot updated successfully"])
        else (db, ["Error managing pilots: UNIQUE constraint failed: pilots.license_id"])
  | PilotAction.delete pilot_id =>
    let assignment_count := (db.assignments.filter (fun a => a.pilot_id == pilot_id)).length
    if assignment_count > 0 then
      (db, ["Can not delete pilot as they have " ++ toString assignment_count ++
            " flight assignments. Delete these assignments first."])
    else
      let remaining := db.pilots.filter (fun p => !(p.pilot_id == pilot_id))
      if remaining.length < db.pilots.length then
        ({ db with pilots := remaining }, ["Pilot deleted successfully"])
      else (db, ["Pilot not found"])

/-- `DBOperations.delete_flight`: deletes every flight with the given flight
number; zero matches yields "Flight not found". -/
def delete_flight (db : DB) (flight_num : String) : DB × List String :=
  let remaining := db.flights.filter (fun f => !(f.flight_number == flight_num))
  if remaining.length < db.flights.length then
    ({ db with flights := remaining }, ["Flight deleted successfully"])
  else (db, ["Flight not found"])

/-- `DBOperations.delete_pilot_assignment`. -/
def delete_pilot_assignment (db : DB) (assignment_id : Int) : DB × List String :=
  let remaining := db.assignments.filter (fun a => !(a.assignment_id == assignment_id))
  if remaining.length < db.assignments.length then
    ({ db with assignments := remaining }, ["Assignment deleted successfully"])
  else (db, ["Assignment not found"])

/-- The sample pilots of `populate_sample_data`. -/
def samplePilots : List (String × String × Int) :=
  [("James Smith", "UK10001", 15), ("Jane Smith", "UK10002", 12),
   ("Michael Scott", "UK10003", 8), ("Tim Robinson", "UK10004", 20),
   ("Taylor Swift", "UK10005", 10), ("Matthew Fox", "UK10006", 7),
   ("John Locke", "UK10007", 5), ("Jim Halpert", "UK10008", 18),
   ("Adam Scott", "UK10009", 25), ("Travis Touchdown", "UK10010", 3),
   ("Sarah Connor", "UK10011", 22), ("Ellen Ripley", "UK10012", 19),
   ("Han Solo", "UK10013", 30), ("Cloud Strife", "UK10014", 15),
   ("Luke Skywalker", "UK10015", 12)]

/-- The sample destinations of `populate_sample_data`. -/
def sampleDestinations : List (String × String × String) :=
  [("London", "UK", "LHR"), ("Tokyo", "Japan", "HND"), ("Seoul", "Korea", "KIX"),
   ("Paris", "France", "CDG"), ("Berlin", "Germany", "BER"), ("New York", "USA", "JFK"),
   ("Dubai", "UAE", "DXB"), ("Sydney", "Australia", "SYD"), ("Toronto", "Canada", "YYZ"),
   ("Los Angeles", "USA", "LAX"), ("Singapore", "Singapore", "SIN"),
   ("Hong Kong", "China", "HKG"), ("Rome", "Italy", "FCO"), ("Madrid", "Spain", "MAD"),
   ("Cape Town", "South Africa", "CPT")]

/-- The sample flights of `populate_sample_data`. -/
def sampleFlights : List (String × Int × Int × String × String) :=
  [("BA101", 1, 2, "2025-03-10 10:00:00", "Scheduled"),
   ("BA102", 2, 1, "2025-03-10 14:00:00", "Scheduled"),
   ("BA103", 1, 3, "2025-03-11 09:00:00", "Scheduled"),
   ("BA104", 3, 4, "2025-03-12 12:00:00", "Scheduled"),
   ("BA105", 4, 5, "2025-03-13 15:00:00", "Scheduled"),
   ("BA106", 5, 6, "2025-03-14 08:00:00", "Scheduled"),
   ("BA107", 6, 7, "2025-03-15 11:00:00", "Scheduled"),
   ("BA108", 7, 8, "2025-03-16 13:00:00", "Scheduled"),
   ("BA109", 8, 9, "2025-03-17 16:00:00", "Scheduled"),
   ("BA110", 9, 10, "2025-03-18 18:00:00", "Scheduled"),
   ("BA111", 10, 11, "2025-03-19 07:00:00", "Scheduled"),
   ("BA112", 11, 12, "2025-03-20 09:00:00", "Scheduled"),
   ("BA113", 12, 13, "2025-03-21 11:00:00", "Scheduled"),
   ("BA114", 13, 14, "2025-03-22 13:00:00", "Scheduled"),
   ("BA115", 14, 15, "2025-03-23 15:00:00", "Scheduled")]

/-- The sample assignments of `populate_sample_data`. -/
def sampleAssignments : List (Int × Int × String) :=
  [(1, 1, "2025-02-01 10:00:00"), (1, 2, "2025-02-01 10:00:00"),
   (2, 3, "2025-02-02 14:00:00"), (3, 4, "2025-02-03 09:00:00"),
   (3, 5, "2025-03-03 09:00:00"), (4, 6, "2025-03-04 12:00:00"),
   (5, 7, "2025-03-05 15:00:00"), (6, 8, "2025-03-06 08:00:00"),
   (7, 9, "2025-03-07 11:00:00"), (8, 10, "2025-03-08 13:00:00"),
   (8, 1, "2025-03-08 13:00:00"), (9, 11, "2025-03-09 16:00:00"),
   (10, 12, "2025-03-10 18:00:00"), (11, 13, "2025-03-11 07:00:00"),
   (12, 14, "2025-03-12 09:00:00"), (12, 15, "2025-03-12 09:00:00")]

/-- `DBOperations.populate_sample_data`: all inserts run in one transaction
committed at the end, so any constraint violation rolls everything back and
leaves the state unchanged. -/
def populate_sample_data (db : DB) : DB × List String :=
  let r : Except String DB := do
    let db1 ← samplePilots.foldlM (fun s p => sql_insert_pilot s p.1 p.2.1 p.2.2) db
    let db2 ← sampleDestinations.foldlM
      (fun s d => sql_insert_destination s d.1 d.2.1 d.2.2) db1
    let db3 ← sampleFlights.foldlM
      (fun s f => sql_insert_flight s f.1 f.2.1 f.2.2.1 f.2.2.2.1 f.2.2.2.2) db2
    sampleAssignments.foldlM (fun s a => sql_insert_assignment s a.1 a.2.1 a.2.2) db3
  match r with
  | Except.error e => (db, ["Error populating sample data: " ++ e])
  | Except.ok db2 => (db2, ["Sample data populated successfully"])

/-- One result row of `DBOperations.get_pilot_flight_count`. -/
structure PilotSummaryRow where
  pilot_id : Int
  name : String
  license_id : String
  flight_count : Nat
  upcoming_flights : Nat
deriving DecidableEq, Repr

/-- The join rows a single assignment contributes after `LEFT JOIN flights`:
the matching flight rows, or one row with a NULL flight side when none
match. -/
def leftJoinFlights (flights : List Flight) (a : Assignment) :
    List (Assignment × Option Flight) :=
  let fs := flights.filter (fun f => f.flight_id == a.flight_id)
  if fs.isEmpty then [(a, (none : Option Flight))] else fs.map (fun f => (a, some f))

/-- The group row produced for one pilot: join rows are this pilot's
assignments LEFT JOINed with flights; `COUNT(pa.flight_id)` counts them all
(`pa.flight_id` is NOT NULL), and the CASE counts those whose flight departs
strictly after `now` (missing flights give NULL and are not counted). -/
def pilotSummaryRow (db : DB) (now : String) (p : Pilot) : PilotSummaryRow :=
  let pas := db.assignments.filter (fun a => a.pilot_id == p.pilot_id)
  let joined := pas.flatMap (leftJoinFlights db.flights)
  { pilot_id := p.pilot_id, name := p.name, license_id := p.license_id,
    flight_count := joined.length,
    upcoming_flights := (joined.filter (fun af =>
      match af.2 with
      | some f => decide (now < f.departure_time)
      | none => false)).length }

/-- `DBOperations.get_pilot_flight_count`: pilots LEFT JOIN assignments LEFT
JOIN flights, grouped per pilot (`pilot_id` is the primary key, so grouping by
id/name/license is grouping per pilot), one `PilotSummaryRow` per pilot;
SQLite compares the stored text timestamps lexicographically against
`datetime('now')`; ordered by `flight_count` descending. -/
def get_pilot_flight_count (db : DB) (now : String) : List PilotSummaryRow :=
  (db.pilots.map (pilotSummaryRow db now)).mergeSort
    (fun a b => b.flight_count ≤ a.flight_count)

/-- The states reachable from a fresh database through the program's mutating
operations.  The wall-clock arguments of `assign_pilot` are constrained to
what `datetime.datetime.now()` can produce (seconds below 60). -/
inductive Reach : DB → Prop where
  | init : Reach emptyDB
  | step_add_flight (db : DB) (fn : String) (o d : Int) (dep : String) :
      Reach db → Reach (add_new_flight db fn o d dep).1
  | step_update_flight (db : DB) (fn : String) (ch : FlightField) :
      Reach db → Reach (update_flight_info db fn ch).1
  | step_assign (db : DB) (fid pid : Int) (date : String) (now : PyDateTime) (nowSec : Nat) :
      nowSec ≤ 59 → Reach db → Reach (assign_pilot db fid pid date now nowSec).1
  | step_dest (db : DB) (act : DestAction) :
      Reach db → Reach (manage_destinations db act).1
  | step_pilot (db : DB) (act : PilotAction) :
      Reach db → Reach (manage_pilots db act).1
  | step_delete_flight (db : DB) (fn : String) :
      Reach db → Reach (delete_flight db fn).1
  | step_delete_assignment (db : DB) (aid : Int) :
      Reach db → Reach (delete_pilot_assignment db aid).1
  | step_populate (db : DB) :
      Reach db → Reach (populate_sample_data db).1

/-- The `UNIQUE(flight_id, pilot_id)` invariant of the assignments table. -/
def PairsUnique (l : List Assignment) : Prop :=
  List.Pairwise (fun a b => ¬(a.flight_id = b.flight_id ∧ a.pilot_id = b.pilot_id)) l

/-- A stored timestamp ends with an explicit two-digit seconds field. -/
def endsWithSeconds (s : String) : Bool :=
  match s.toList.reverse with
  | b :: a :: c :: _ => a.isDigit && b.isDigit && c == ':'
  | _ => false

/-- All timestamps stored in the state carry explicit seconds. -/
def TimestampsNormalized (db : DB) : Prop :=
  (∀ f ∈ db.flights, endsWithSeconds f.departure_time) ∧
  (∀ a ∈ db.assignments, endsWithSeconds a.assignment_date)

theorem sql_insert_flight_ok_iff (db : DB) (fn : String) (o d : Int) (dep st : String)
    (db2 : DB) :
    sql_insert_flight db fn o d dep st = Except.ok db2 ↔
      (allowedStatuses.contains st = true ∧ o ≠ d ∧
        db2 = { db with flights := db.flights ++
          [⟨nextId (db.flights.map Flight.flight_id), fn, o, d, dep, st⟩] }) := by
  unfold sql_insert_flight
  cases hc : allowedStatuses.contains st with
  | false => simp
  | true =>
    by_cases h2 : o = d
    · simp [h2]
    · simp [h2, eq_comm]

theorem sql_insert_flight_scheduled_same (db : DB) (fn : String) (o : Int) (dep : String) :
    sql_insert_flight db fn o o dep "Scheduled" =
      Except.error "CHECK constraint failed: origin_id <> destination_id" := by
  have hc : allowedStatuses.contains "Scheduled" = true := by decide
  unfold sql_insert_flight
  rw [hc]
  simp

theorem add_new_flight_of_parse_none {dep : String} (db : DB) (fn : String) (o d : Int)
    (h : strptimeYmdHm dep = none) :
    add_new_flight db fn o d dep =
      (db, ["Invalid datetime format. Please use 'YYYY-MM-DD HH:MM'"]) := by
  unfold add_new_flight
  rw [h]

theorem add_new_flight_of_parse_some {dep : String} {dt : PyDateTime} (db : DB) (fn : String)
    (o d : Int) (h : strptimeYmdHm dep = some dt) :
    add_new_flight db fn o d dep =
      match sql_insert_flight db fn o d (strftimeYmdHms dt 0) "Scheduled" with
      | Except.error e => (db, ["Error adding flight: " ++ e])
      | Except.ok db2 => (db2, ["Flight added successfully"]) := by
  unfold add_new_flight
  rw [h]

/-- C1: for every store state, an `add_flight` request whose origin id equals
its destination id is rejected (either as a datetime-format error or by the
`origin_id <> destination_id` CHECK constraint); the state, in particular the
flights table and its row count, is unchanged, and the success message is
never printed. -/
theorem C1_add_flight_same_origin_destination_rejected (db : DB) (fn dep : String) (o : Int) :
    (add_new_flight db fn o o dep).1 = db ∧
    (add_new_flight db fn o o dep).1.flights.length = db.flights.length ∧
    (add_new_flight db fn o o dep).2 ≠ ["Flight added successfully"] := by
  cases hp : strptimeYmdHm dep with
  | none =>
    rw [add_new_flight_of_parse_none db fn o o hp]
    refine ⟨rfl, rfl, ?_⟩
    simp
  | some dt =>
    rw [add_new_flight_of_parse_some db fn o o hp, sql_insert_flight_scheduled_same]
    refine ⟨rfl, rfl, ?_⟩
    simp

theorem sql_insert_pilot_ok_iff (db : DB) (n lic : String) (e : Int) (db2 : DB) :
    sql_insert_pilot db n lic e = Except.ok db2 ↔
      (db.pilots.any (fun p => p.license_id == lic) = false ∧
        db2 = { db with pilots := db.pilots ++
          [⟨nextId (db.pilots.map Pilot.pilot_id), n, lic, e⟩] }) := by
  unfold sql_insert_pilot
  cases hc : db.pilots.any (fun p => p.license_id == lic) with
  | false => simp [eq_comm]
  | true => simp

theorem sql_insert_destination_ok_iff (db : DB) (c co ac : String) (db2 : DB) :
    sql_insert_destination db c co ac = Except.ok db2 ↔
      (db.destinations.any (fun d => d.city == c && d.airport_code == ac) = false ∧
        db2 = { db with destinations := db.destinations ++
          [⟨nextId (db.destinations.map Destination.destination_id), c, co, ac⟩] }) := by
  unfold sql_insert_destination
  cases hc : db.destinations.any (fun d => d.city == c && d.airport_code == ac) with
  | false => simp [eq_comm]
  | true => simp

theorem sql_insert_assignment_ok_iff (db : DB) (fid pid : Int) (dd : String) (db2 : DB) :
    sql_insert_assignment db fid pid dd = Except.ok db2 ↔
      (db.assignments.any (fun a => a.flight_id == fid && a.pilot_id == pid) = false ∧
        db2 = { db with assignments := db.assignments ++
          [⟨nextId (db.assignments.map Assignment.assignment_id), fid, pid, dd⟩] }) := by
  unfold sql_insert_assignment
  cases hc : db.assignments.any (fun a => a.flight_id == fid && a.pilot_id == pid) with
  | false => simp [eq_comm]
  | true => simp

theorem add_new_flight_frame (db : DB) (fn : String) (o d : Int) (dep : String) :
    (add_new_flight db fn o d dep).1.pilots = db.pilots ∧
    (add_new_flight db fn o d dep).1.destinations = db.destinations ∧
    (add_new_flight db fn o d dep).1.assignments = db.assignments := by
  unfold add_new_flight
  split
  · exact ⟨rfl, rfl, rfl⟩
  · split
    · exact ⟨rfl, rfl, rfl⟩
    · next db2 heq =>
        rw [sql_insert_flight_ok_iff] at heq
        obtain ⟨-, -, rfl⟩ := heq
        exact ⟨rfl, rfl, rfl⟩

theorem update_flight_info_frame (db : DB) (fn : String) (ch : FlightField) :
    (update_flight_info db fn ch).1.pilots = db.pilots ∧
    (update_flight_info db fn ch).1.destinations = db.destinations ∧
    (update_flight_info db fn ch).1.assignments = db.assignments := by
  cases ch with
  | departureTime s =>
    simp only [update_flight_info]
    split
    · exact ⟨rfl, rfl, rfl⟩
    · split
      · split
        · exact ⟨rfl, rfl, rfl⟩
        · exact ⟨rfl, rfl, rfl⟩
      · exact ⟨rfl, rfl, rfl⟩
  | statusField s =>
    simp only [update_flight_info]
    split
    · split
      · exact ⟨rfl, rfl, rfl⟩
      · exact ⟨rfl, rfl, rfl⟩
    · exact ⟨rfl, rfl, rfl⟩

theorem manage_destinations_frame (db : DB) (act : DestAction) :
    (manage_destinations db act).1.pilots = db.pilots ∧
    (manage_destinations db act).1.flights = db.flights ∧
    (manage_destinations db act).1.assignments = db.assignments := by
  cases act with
  | view => exact ⟨rfl, rfl, rfl⟩
  | add c co ac =>
    simp only [manage_destinations]
    split
    · exact ⟨rfl, rfl, rfl⟩
    · next db2 heq =>
        rw [sql_insert_destination_ok_iff] at heq
        obtain ⟨-, rfl⟩ := heq
        exact ⟨rfl, rfl, rfl⟩
  | update did c co ac =>
    simp only [manage_destinations]
    split
    · exact ⟨rfl, rfl, rfl⟩
    · split
      · exact ⟨rfl, rfl, rfl⟩
      · exact ⟨rfl, rfl, rfl⟩

theorem manage_pilots_frame (db : DB) (act : PilotAction) :
    (manage_pilots db act).1.destinations = db.destinations ∧
    (manage_pilots db act).1.flights = db.flights ∧
    (manage_pilots db act).1.assignments = db.assignments := by
  cases act with
  | view => exact ⟨rfl, rfl, rfl⟩
  | add n lic e =>
    simp only [manage_pilots]
    split
    · exact ⟨rfl, rfl, rfl⟩
    · next db2 heq =>
        rw [sql_insert_pilot_ok_iff] at heq
        obtain ⟨-, rfl⟩ := heq
        exact ⟨rfl, rfl, rfl⟩
  | update pid n lic e =>
    simp only [manage_pilots]
    split
    · exact ⟨rfl, rfl, rfl⟩
    · split
      · exact ⟨rfl, rfl, rfl⟩
      · split
        · exact ⟨rfl, rfl, rfl⟩
        · exact ⟨rfl, rfl, rfl⟩
  | delete pid =>
    simp only [manage_pilots]
    split
    · exact ⟨rfl, rfl, rfl⟩
    · split
      · exact ⟨rfl, rfl, rfl⟩
      · exact ⟨rfl, rfl, rfl⟩

theorem delete_flight_frame (db : DB) (fn : String) :
    (delete_flight db fn).1.pilots = db.pilots ∧
    (delete_flight db fn).1.destinations = db.destinations ∧
    (delete_flight db fn).1.assignments = db.assignments := by
  unfold delete_flight
  dsimp only
  split
  · exact ⟨rfl, rfl, rfl⟩
  · exact ⟨rfl, rfl, rfl⟩

theorem delete_pilot_assignment_cases (db : DB) (aid : Int) :
    ((delete_pilot_assignment db aid).1.pilots = db.pilots ∧
     (delete_pilot_assignment db aid).1.destinations = db.destinations ∧
     (delete_pilot_assignment db aid).1.flights = db.flights) ∧
    ((delete_pilot_assignment db aid).1.assignments =
        db.assignments.filter (fun a => !(a.assignment_id == aid)) ∨
     (delete_pilot_assignment db aid).1.assignments = db.assignments) := by
  unfold delete_pilot_assignment
  dsimp only
  split
  · exact ⟨⟨rfl, rfl, rfl⟩, Or.inl rfl⟩
  · exact ⟨⟨rfl, rfl, rfl⟩, Or.inr rfl⟩

theorem assign_pilot_frame (db : DB) (fid pid : Int) (date : String)
    (now : PyDateTime) (nsec : Nat) :
    (assign_pilot db fid pid date now nsec).1.pilots = db.pilots ∧
    (assign_pilot db fid pid date now nsec).1.destinations = db.destinations ∧
    (assign_pilot db fid pid date now nsec).1.flights = db.flights := by
  unfold assign_pilot
  dsimp only
  split
  · exact ⟨rfl, rfl, rfl⟩
  · split
    · exact ⟨rfl, rfl, rfl⟩
    · split
      · split
        · exact ⟨rfl, rfl, rfl⟩
        · next db2 heq =>
            rw [sql_insert_assignment_ok_iff] at heq
            obtain ⟨-, rfl⟩ := heq
            exact ⟨rfl, rfl, rfl⟩
      · split
        · exact ⟨rfl, rfl, rfl⟩
        · split
          · exact ⟨rfl, rfl, rfl⟩
          · next db2 heq =>
              rw [sql_insert_assignment_ok_iff] at heq
              obtain ⟨-, rfl⟩ := heq
              exact ⟨rfl, rfl, rfl⟩

theorem assign_pilot_assignments_cases (db : DB) (fid pid : Int) (date : String)
    (now : PyDateTime) (nsec : Nat) :
    (assign_pilot db fid pid date now nsec).1.assignments = db.assignments ∨
    ∃ dd, (dd = strftimeYmdHms now nsec ∨ ∃ dt, dd = strftimeYmdHms dt 0) ∧
      db.assignments.any (fun a => a.flight_id == fid && a.pilot_id == pid) = false ∧
      (assign_pilot db fid pid date now nsec).1.assignments =
        db.assignments ++ [⟨nextId (db.assignments.map Assignment.assignment_id), fid, pid, dd⟩] := by
  unfold assign_pilot
  dsimp only
  split
  · exact Or.inl rfl
  · split
    · exact Or.inl rfl
    · split
      · split
        · exact Or.inl rfl
        · next db2 heq =>
            rw [sql_insert_assignment_ok_iff] at heq
            obtain ⟨hany, rfl⟩ := heq
            exact Or.inr ⟨strftimeYmdHms now nsec, Or.inl rfl, hany, rfl⟩
      · split
        · exact Or.inl rfl
        · next dt hdt =>
            split
            · exact Or.inl rfl
            · next db2 heq =>
                rw [sql_insert_assignment_ok_iff] at heq
                obtain ⟨hany, rfl⟩ := heq
                exact Or.inr ⟨strftimeYmdHms dt 0, Or.inr ⟨dt, rfl⟩, hany, rfl⟩

theorem except_bind_ok {ε α β : Type} (a : α) (f : α → Except ε β) :
    (Except.ok a >>= f) = f a := rfl

theorem except_bind_error {ε α β : Type} (e : ε) (f : α → Except ε β) :
    ((Except.error e : Except ε α) >>= f) = Except.error e := rfl

theorem foldlM_ok_preserve {β : Type} (P : DB → Prop) (f : DB → β → Except String DB) :
    ∀ (l : List β), (∀ s b s2, b ∈ l → f s b = Except.ok s2 → P s → P s2) →
      ∀ s s2, l.foldlM f s = Except.ok s2 → P s → P s2 := by
  intro l
  induction l with
  | nil =>
    intro _ s s2 hfold hP
    simp only [List.foldlM_nil] at hfold
    rw [show (pure s : Except String DB) = Except.ok s from rfl] at hfold
    injection hfold with h
    exact h ▸ hP
  | cons b l ih =>
    intro hf s s2 hfold hP
    rw [List.foldlM_cons] at hfold
    cases hfb : f s b with
    | error e => rw [hfb, except_bind_error] at hfold; cases hfold
    | ok s1 =>
      rw [hfb, except_bind_ok] at hfold
      exact ih (fun u c u2 hc => hf u c u2 (List.mem_cons_of_mem _ hc)) s1 s2 hfold
        (hf s b s1 (List.mem_cons_self _ _) hfb hP)

theorem populate_sample_data_preserves (P : DB → Prop)
    (hpil : ∀ s p s2, p ∈ samplePilots →
      sql_insert_pilot s p.1 p.2.1 p.2.2 = Except.ok s2 → P s → P s2)
    (hdst : ∀ s d s2, d ∈ sampleDestinations →
      sql_insert_destination s d.1 d.2.1 d.2.2 = Except.ok s2 → P s → P s2)
    (hflt : ∀ s f s2, f ∈ sampleFlights →
      sql_insert_flight s f.1 f.2.1 f.2.2.1 f.2.2.2.1 f.2.2.2.2 = Except.ok s2 → P s → P s2)
    (hasn : ∀ s a s2, a ∈ sampleAssignments →
      sql_insert_assignment s a.1 a.2.1 a.2.2 = Except.ok s2 → P s → P s2)
    (db : DB) (hP : P db) : P (populate_sample_data db).1 := by
  unfold populate_sample_data
  dsimp only
  split
  · exact hP
  · next db4 hr =>
      cases h1 : samplePilots.foldlM (fun s p => sql_insert_pilot s p.1 p.2.1 p.2.2) db with
      | error e => rw [h1, except_bind_error] at hr; cases hr
      | ok db1 =>
        rw [h1, except_bind_ok] at hr
        have hP1 : P db1 := foldlM_ok_preserve P _ _ hpil db db1 h1 hP
        cases h2 : sampleDestinations.foldlM
            (fun s d => sql_insert_destination s d.1 d.2.1 d.2.2) db1 with
        | error e => rw [h2, except_bind_error] at hr; cases hr
        | ok db2 =>
          rw [h2, except_bind_ok] at hr
          have hP2 : P db2 := foldlM_ok_preserve P _ _ hdst db1 db2 h2 hP1
          cases h3 : sampleFlights.foldlM
              (fun s f => sql_insert_flight s f.1 f.2.1 f.2.2.1 f.2.2.2.1 f.2.2.2.2) db2 with
          | error e => rw [h3, except_bind_error] at hr; cases hr
          | ok db3 =>
            rw [h3, except_bind_ok] at hr
            have hP3 : P db3 := foldlM_ok_preserve P _ _ hflt db2 db3 h3 hP2
            exact foldlM_ok_preserve P _ _ hasn db3 db4 hr hP3

theorem pairsUnique_append (l : List Assignment) (x : Assignment)
    (hl : PairsUnique l)
    (hx : l.any (fun a => a.flight_id == x.flight_id && a.pilot_id == x.pilot_id) = false) :
    PairsUnique (l ++ [x]) := by
  unfold PairsUnique at hl ⊢
  rw [List.pairwise_append]
  refine ⟨hl, List.pairwise_singleton _ _, ?_⟩
  intro a ha b hb
  rw [List.mem_singleton] at hb
  subst hb
  have hna := List.any_eq_false.mp hx a ha
  intro hcontra
  obtain ⟨h1, h2⟩ := hcontra
  exact hna (by simp [h1, h2])

theorem reach_pairsUnique (db : DB) (h : Reach db) : PairsUnique db.assignments := by
  induction h with
  | init => exact List.Pairwise.nil
  | step_add_flight db fn o d dep _ ih =>
    rw [(add_new_flight_frame db fn o d dep).2.2]; exact ih
  | step_update_flight db fn ch _ ih =>
    rw [(update_flight_info_frame db fn ch).2.2]; exact ih
  | step_assign db fid pid date now nsec hsec _ ih =>
    rcases assign_pilot_assignments_cases db fid pid date now nsec with heq | ⟨dd, _, hany, heq⟩
    · rw [heq]; exact ih
    · rw [heq]; exact pairsUnique_append _ _ ih hany
  | step_dest db act _ ih =>
    rw [(manage_destinations_frame db act).2.2]; exact ih
  | step_pilot db act _ ih =>
    rw [(manage_pilots_frame db act).2.2]; exact ih
  | step_delete_flight db fn _ ih =>
    rw [(delete_flight_frame db fn).2.2]; exact ih
  | step_delete_assignment db aid _ ih =>
    rcases (delete_pilot_assignment_cases db aid).2 with heq | heq
    · rw [heq]; exact List.Pairwise.filter _ ih
    · rw [heq]; exact ih
  | step_populate db _ ih =>
    refine populate_sample_data_preserves (fun s => PairsUnique s.assignments)
      ?_ ?_ ?_ ?_ db ih
    · intro s p s2 _ heq hP
      rw [sql_insert_pilot_ok_iff] at heq
      obtain ⟨-, rfl⟩ := heq
      exact hP
    · intro s d s2 _ heq hP
      rw [sql_insert_destination_ok_iff] at heq
      obtain ⟨-, rfl⟩ := heq
      exact hP
    · intro s f s2 _ heq hP
      rw [sql_insert_flight_ok_iff] at heq
      obtain ⟨-, -, rfl⟩ := heq
      exact hP
    · intro s a s2 _ heq hP
      rw [sql_insert_assignment_ok_iff] at heq
      obtain ⟨hany, rfl⟩ := heq
      exact pairsUnique_append _ _ hP hany

theorem update_flight_info_of_parse_none (db : DB) (fn : String) {s : String}
    (h : strptimeYmdHm s = none) :
    update_flight_info db fn (FlightField.departureTime s) =
      (db, ["Invalid datetime format. Please use 'YYYY-MM-DD HH:MM'"]) := by
  simp only [update_flight_info]
  rw [h]

theorem assign_pilot_of_parse_none (db : DB) (fid pid : Int) {date : String}
    (now : PyDateTime) (nsec : Nat)
    (hf : validate_flight_id_exists db fid = true)
    (hp : validate_pilot_exists db pid = true)
    (hne : ¬ pyStrip date = "")
    (hn : strptimeYmdHm (pyStrip date) = none) :
    assign_pilot db fid pid date now nsec =
      (db, ["Invalid datetime format. Please use 'YYYY-MM-DD HH:MM'"]) := by
  unfold assign_pilot
  rw [hf, hp]
  simp only [Bool.not_true, Bool.false_eq_true, if_false]
  rw [if_neg hne, hn]

/-- C2 (divergence witness): the declared FOREIGN KEY constraints are not
enforced by the store (sqlite3 leaves foreign-key enforcement off and the
program never turns it on), so an `add_flight` whose destination id 999
references no destination row is silently inserted instead of raising a
store-layer error: starting from a store whose only destination is id 1, the
insert reports success and the orphan row is present. -/
theorem C2_unknown_destination_id_is_silently_inserted :
    (¬ ∃ d ∈ (manage_destinations emptyDB (DestAction.add "London" "UK" "LHR")).1.destinations,
        d.destination_id = 999) ∧
    (add_new_flight (manage_destinations emptyDB (DestAction.add "London" "UK" "LHR")).1
        "FL999" 1 999 "2025-01-01 10:00").2 = ["Flight added successfully"] ∧
    (add_new_flight (manage_destinations emptyDB (DestAction.add "London" "UK" "LHR")).1
        "FL999" 1 999 "2025-01-01 10:00").1.flights =
      [⟨1, "FL999", 1, 999, "2025-01-01 10:00:00", "Scheduled"⟩] := by
  refine ⟨by decide, ?_, ?_⟩ <;> rfl

/-- C3: an input timestamp string rejected by `strptime` with format
`%Y-%m-%d %H:%M` makes `add_flight`, `update_flight` (departure-time field)
and `assign_pilot` (non-blank stripped date) print the format-error message
and return with the store completely unchanged (the validation happens before
any INSERT or UPDATE statement). -/
theorem C3_bad_timestamp_signals_error_and_leaves_store_unchanged
    (db : DB) (fn : String) (o d fid pid : Int) (s t : String)
    (now : PyDateTime) (nsec : Nat)
    (hs : strptimeYmdHm s = none)
    (ht0 : ¬ pyStrip t = "") (ht : strptimeYmdHm (pyStrip t) = none)
    (hf : validate_flight_id_exists db fid = true)
    (hp : validate_pilot_exists db pid = true) :
    add_new_flight db fn o d s =
      (db, ["Invalid datetime format. Please use 'YYYY-MM-DD HH:MM'"]) ∧
    update_flight_info db fn (FlightField.departureTime s) =
      (db, ["Invalid datetime format. Please use 'YYYY-MM-DD HH:MM'"]) ∧
    assign_pilot db fid pid t now nsec =
      (db, ["Invalid datetime format. Please use 'YYYY-MM-DD HH:MM'"]) :=
  ⟨add_new_flight_of_parse_none db fn o d hs,
   update_flight_info_of_parse_none db fn hs,
   assign_pilot_of_parse_none db fid pid now nsec hf hp ht0 ht⟩

theorem C3_witness :
    add_new_flight (DB.mk [⟨1, "Ann", "L1", 5⟩] []
        [⟨1, "BA1", 1, 2, "2025-01-01 10:00:00", "Scheduled"⟩] []) "BA2" 1 2 "2025/01/01 10:00" =
      (DB.mk [⟨1, "Ann", "L1", 5⟩] []
        [⟨1, "BA1", 1, 2, "2025-01-01 10:00:00", "Scheduled"⟩] [],
       ["Invalid datetime format. Please use 'YYYY-MM-DD HH:MM'"]) ∧
    update_flight_info (DB.mk [⟨1, "Ann", "L1", 5⟩] []
        [⟨1, "BA1", 1, 2, "2025-01-01 10:00:00", "Scheduled"⟩] []) "BA2"
        (FlightField.departureTime "2025/01/01 10:00") =
      (DB.mk [⟨1, "Ann", "L1", 5⟩] []
        [⟨1, "BA1", 1, 2, "2025-01-01 10:00:00", "Scheduled"⟩] [],
       ["Invalid datetime format. Please use 'YYYY-MM-DD HH:MM'"]) ∧
    assign_pilot (DB.mk [⟨1, "Ann", "L1", 5⟩] []
        [⟨1, "BA1", 1, 2, "2025-01-01 10:00:00", "Scheduled"⟩] []) 1 1 "2025/01/01 10:00"
        ⟨2025, 1, 1, 0, 0⟩ 0 =
      (DB.mk [⟨1, "Ann", "L1", 5⟩] []
        [⟨1, "BA1", 1, 2, "2025-01-01 10:00:00", "Scheduled"⟩] [],
       ["Invalid datetime format. Please use 'YYYY-MM-DD HH:MM'"]) :=
  C3_bad_timestamp_signals_error_and_leaves_store_unchanged
    (DB.mk [⟨1, "Ann", "L1", 5⟩] [] [⟨1, "BA1", 1, 2, "2025-01-01 10:00:00", "Scheduled"⟩] [])
    "BA2" 1 2 1 1 "2025/01/01 10:00" "2025/01/01 10:00" ⟨2025, 1, 1, 0, 0⟩ 0
    (by decide) (by decide) (by decide) (by decide) (by decide)

theorem manage_pilots_delete_refused (db : DB) (pid : Int)
    (h : 0 < (db.assignments.filter (fun a => a.pilot_id == pid)).length) :
    manage_pilots db (PilotAction.delete pid) =
      (db, ["Can not delete pilot as they have " ++
            toString (db.assignments.filter (fun a => a.pilot_id == pid)).length ++
            " flight assignments. Delete these assignments first."]) := by
  simp only [manage_pilots]
  rw [if_pos h]

theorem manage_pilots_delete_ok (db : DB) (pid : Int)
    (h0 : db.assignments.filter (fun a => a.pilot_id == pid) = [])
    (hex : validate_pilot_exists db pid = true) :
    manage_pilots db (PilotAction.delete pid) =
      ({ db with pilots := db.pilots.filter (fun p => !(p.pilot_id == pid)) },
       ["Pilot deleted successfully"]) := by
  simp only [manage_pilots, h0, List.length_nil]
  rw [if_neg (by decide)]
  have hle := List.length_filter_le (fun p => !(p.pilot_id == pid)) db.pilots
  obtain ⟨p, hpmem, hpid⟩ := List.any_eq_true.mp hex
  have hne : ¬ ∀ a ∈ db.pilots, (!(a.pilot_id == pid)) = true := by
    intro hall
    have := hall p hpmem
    rw [hpid] at this
    simp at this
  have hneq : (db.pilots.filter (fun p => !(p.pilot_id == pid))).length ≠ db.pilots.length :=
    fun hcontra => hne (List.filter_length_eq_length.mp hcontra)
  rw [if_pos (by omega)]

/-- C5: deleting a pilot that still has N > 0 assignment rows is refused with
a message naming N and leaves the state unchanged; once the pilot's
assignments are all gone, a subsequent delete of the same (existing) pilot id
succeeds and removes the pilot row. -/
theorem C5_pilot_delete_guarded_by_assignment_count (db db2 : DB) (pid : Int) :
    (0 < (db.assignments.filter (fun a => a.pilot_id == pid)).length →
      manage_pilots db (PilotAction.delete pid) =
        (db, ["Can not delete pilot as they have " ++
              toString (db.assignments.filter (fun a => a.pilot_id == pid)).length ++
              " flight assignments. Delete these assignments first."])) ∧
    (db2.assignments.filter (fun a => a.pilot_id == pid) = [] →
      validate_pilot_exists db2 pid = true →
      manage_pilots db2 (PilotAction.delete pid) =
        ({ db2 with pilots := db2.pilots.filter (fun p => !(p.pilot_id == pid)) },
         ["Pilot deleted successfully"])) :=
  ⟨manage_pilots_delete_refused db pid, manage_pilots_delete_ok db2 pid⟩

theorem C5_witness :
    manage_pilots (DB.mk [⟨1, "Ann", "L1", 5⟩] [] [] [⟨1, 1, 1, "2025-01-01 10:00:00"⟩])
        (PilotAction.delete 1) =
      (DB.mk [⟨1, "Ann", "L1", 5⟩] [] [] [⟨1, 1, 1, "2025-01-01 10:00:00"⟩],
       ["Can not delete pilot as they have 1 flight assignments. Delete these assignments first."]) ∧
    manage_pilots (DB.mk [⟨1, "Ann", "L1", 5⟩] [] [] []) (PilotAction.delete 1) =
      (DB.mk [] [] [] [], ["Pilot deleted successfully"]) := by
  have h := C5_pilot_delete_guarded_by_assignment_count
    (DB.mk [⟨1, "Ann", "L1", 5⟩] [] [] [⟨1, 1, 1, "2025-01-01 10:00:00"⟩])
    (DB.mk [⟨1, "Ann", "L1", 5⟩] [] [] []) 1
  exact ⟨h.1 (by decide), h.2 (by decide) (by decide)⟩

/-- C9: a pilot update and a destination update with every field left blank
execute no UPDATE statement at all: the state is unchanged, every field of
every row is untouched, and no message (in particular no error) is printed —
the operation returns normally as a no-op. -/
theorem C9_empty_partial_update_is_silent_noop (db : DB) (pid did : Int) :
    manage_pilots db (PilotAction.update pid "" "" "") = (db, []) ∧
    manage_destinations db (DestAction.update did "" "" "") = (db, []) :=
  ⟨rfl, rfl⟩

theorem sql_insert_assignment_dup (db : DB) (fid pid : Int) (dd : String)
    (hdup : db.assignments.any (fun a => a.flight_id == fid && a.pilot_id == pid) = true) :
    sql_insert_assignment db fid pid dd =
      Except.error
        "UNIQUE constraint failed: pilot_assignments.flight_id, pilot_assignments.pilot_id" := by
  unfold sql_insert_assignment
  rw [hdup]
  simp

theorem assign_pilot_success (db : DB) (fid pid : Int) (date : String)
    (now : PyDateTime) (nsec : Nat)
    (hf : validate_flight_id_exists db fid = true)
    (hp : validate_pilot_exists db pid = true)
    (hnew : db.assignments.any (fun a => a.flight_id == fid && a.pilot_id == pid) = false)
    (hd : pyStrip date = "" ∨ ∃ dt, strptimeYmdHm (pyStrip date) = some dt) :
    ∃ dd, assign_pilot db fid pid date now nsec =
      ({ db with assignments := db.assignments ++
          [⟨nextId (db.assignments.map Assignment.assignment_id), fid, pid, dd⟩] },
       ["Pilot assigned successfully"]) := by
  unfold assign_pilot
  rw [hf, hp]
  simp only [Bool.not_true, Bool.false_eq_true, if_false]
  rcases hd with hb | ⟨dt, hdt⟩
  · rw [if_pos hb]
    have hok : sql_insert_assignment db fid pid (strftimeYmdHms now nsec) =
        Except.ok { db with assignments := db.assignments ++
          [⟨nextId (db.assignments.map Assignment.assignment_id), fid, pid,
            strftimeYmdHms now nsec⟩] } := by
      rw [sql_insert_assignment_ok_iff]
      exact ⟨hnew, rfl⟩
    rw [hok]
    exact ⟨strftimeYmdHms now nsec, rfl⟩
  · have hne : ¬ pyStrip date = "" := by
      intro h
      rw [h] at hdt
      rw [show strptimeYmdHm "" = none from rfl] at hdt
      cases hdt
    rw [if_neg hne, hdt]
    dsimp only
    have hok : sql_insert_assignment db fid pid (strftimeYmdHms dt 0) =
        Except.ok { db with assignments := db.assignments ++
          [⟨nextId (db.assignments.map Assignment.assignment_id), fid, pid,
            strftimeYmdHms dt 0⟩] } := by
      rw [sql_insert_assignment_ok_iff]
      exact ⟨hnew, rfl⟩
    rw [hok]
    exact ⟨strftimeYmdHms dt 0, rfl⟩

theorem assign_pilot_dup_rejected (db : DB) (fid pid : Int) (date : String)
    (now : PyDateTime) (nsec : Nat)
    (hf : validate_flight_id_exists db fid = true)
    (hp : validate_pilot_exists db pid = true)
    (hdup : db.assignments.any (fun a => a.flight_id == fid && a.pilot_id == pid) = true) :
    (assign_pilot db fid pid date now nsec).1 = db ∧
    (assign_pilot db fid pid date now nsec).2 ≠ ["Pilot assigned successfully"] := by
  unfold assign_pilot
  rw [hf, hp]
  simp only [Bool.not_true, Bool.false_eq_true, if_false]
  by_cases hb : pyStrip date = ""
  · rw [if_pos hb, sql_insert_assignment_dup db fid pid _ hdup]
    exact ⟨rfl, by simp⟩
  · rw [if_neg hb]
    cases hdt : strptimeYmdHm (pyStrip date) with
    | none => exact ⟨rfl, by simp⟩
    | some dt =>
      dsimp only
      rw [sql_insert_assignment_dup db fid pid _ hdup]
      exact ⟨rfl, by simp⟩

/-- C4: with no assignment row for the pair (F, P) present, assigning pilot P
to flight F succeeds; an immediately repeated assignment of the same pair is
rejected (by the `UNIQUE(flight_id, pilot_id)` constraint, or as a format
error when its date input is malformed), leaves the state unchanged and the
table still holds exactly one row for the pair; and in every reachable state
the (flight_id, pilot_id) pairs of the assignments table are pairwise
distinct. -/
theorem C4_assignment_pair_unique (db : DB) (fid pid : Int) (date date2 : String)
    (now now2 : PyDateTime) (nsec nsec2 : Nat)
    (hf : validate_flight_id_exists db fid = true)
    (hp : validate_pilot_exists db pid = true)
    (hnone : db.assignments.filter (fun a => a.flight_id == fid && a.pilot_id == pid) = [])
    (hdate : pyStrip date = "" ∨ ∃ dt, strptimeYmdHm (pyStrip date) = some dt) :
    (assign_pilot db fid pid date now nsec).2 = ["Pilot assigned successfully"] ∧
    ((assign_pilot db fid pid date now nsec).1.assignments.filter
        (fun a => a.flight_id == fid && a.pilot_id == pid)).length = 1 ∧
    (assign_pilot (assign_pilot db fid pid date now nsec).1 fid pid date2 now2 nsec2).1 =
      (assign_pilot db fid pid date now nsec).1 ∧
    (assign_pilot (assign_pilot db fid pid date now nsec).1 fid pid date2 now2 nsec2).2 ≠
      ["Pilot assigned successfully"] ∧
    ((assign_pilot (assign_pilot db fid pid date now nsec).1 fid pid
        date2 now2 nsec2).1.assignments.filter
        (fun a => a.flight_id == fid && a.pilot_id == pid)).length = 1 ∧
    (∀ s, Reach s → PairsUnique s.assignments) := by
  have hnew : db.assignments.any (fun a => a.flight_id == fid && a.pilot_id == pid) = false := by
    rw [List.any_eq_false]
    intro a ha
    have := List.filter_eq_nil_iff.mp hnone a ha
    simpa using this
  obtain ⟨dd, heq⟩ := assign_pilot_success db fid pid date now nsec hf hp hnew hdate
  have hcount : ((assign_pilot db fid pid date now nsec).1.assignments.filter
      (fun a => a.flight_id == fid && a.pilot_id == pid)).length = 1 := by
    rw [heq]
    dsimp only
    rw [List.filter_append, hnone]
    simp
  have hf1 : validate_flight_id_exists (assign_pilot db fid pid date now nsec).1 fid = true := by
    rw [heq]
    exact hf
  have hp1 : validate_pilot_exists (assign_pilot db fid pid date now nsec).1 pid = true := by
    rw [heq]
    exact hp
  have hdup : (assign_pilot db fid pid date now nsec).1.assignments.any
      (fun a => a.flight_id == fid && a.pilot_id == pid) = true := by
    rw [heq]
    dsimp only
    rw [List.any_append]
    simp
  obtain ⟨h21, h22⟩ := assign_pilot_dup_rejected (assign_pilot db fid pid date now nsec).1
    fid pid date2 now2 nsec2 hf1 hp1 hdup
  refine ⟨by rw [heq], hcount, h21, h22, ?_, reach_pairsUnique⟩
  rw [h21]
  exact hcount

theorem C4_witness :
    (assign_pilot (DB.mk [⟨1, "Ann", "L1", 5⟩] []
        [⟨1, "BA1", 1, 2, "2025-01-01 10:00:00", "Scheduled"⟩] []) 1 1 ""
        ⟨2025, 1, 1, 0, 0⟩ 0).2 = ["Pilot assigned successfully"] ∧
    ((assign_pilot (DB.mk [⟨1, "Ann", "L1", 5⟩] []
        [⟨1, "BA1", 1, 2, "2025-01-01 10:00:00", "Scheduled"⟩] []) 1 1 ""
        ⟨2025, 1, 1, 0, 0⟩ 0).1.assignments.filter
        (fun a => a.flight_id == 1 && a.pilot_id == 1)).length = 1 := by
  have h := C4_assignment_pair_unique
    (DB.mk [⟨1, "Ann", "L1", 5⟩] [] [⟨1, "BA1", 1, 2, "2025-01-01 10:00:00", "Scheduled"⟩] [])
    1 1 "" "" ⟨2025, 1, 1, 0, 0⟩ ⟨2025, 1, 1, 0, 0⟩ 0 0
    (by decide) (by decide) (by decide) (Or.inl (by decide))
  exact ⟨h.1, h.2.1⟩

/-- C6: `update_flight` matches rows by `flight_number`: when the new value is
itself valid (a parseable departure time, or an allowed status) and every
stored row passes the table checks, one call rewrites the field on ALL rows
carrying that flight number; when no row carries it, the call prints "Flight
not found" and the state is unchanged. -/
theorem C6_update_flight_matches_by_flight_number (db : DB) (fn s ns : String)
    (dt : PyDateTime)
    (hs : strptimeYmdHm s = some dt)
    (hokAll : ∀ f ∈ db.flights, flightChecks f.status f.origin_id f.destination_id = true)
    (hns : allowedStatuses.contains ns = true) :
    (db.flights.filter (fun f => f.flight_number == fn) ≠ [] →
      update_flight_info db fn (FlightField.departureTime s) =
        ({ db with flights := db.flights.map (fun f =>
            if f.flight_number == fn then
              { f with departure_time := strftimeYmdHms dt 0 } else f) },
         ["Flight updated successfully"])) ∧
    (db.flights.filter (fun f => f.flight_number == fn) = [] →
      update_flight_info db fn (FlightField.departureTime s) =
        (db, ["Flight not found"])) ∧
    (db.flights.filter (fun f => f.flight_number == fn) ≠ [] →
      update_flight_info db fn (FlightField.statusField ns) =
        ({ db with flights := db.flights.map (fun f =>
            if f.flight_number == fn then { f with status := ns } else f) },
         ["Flight updated successfully"])) ∧
    (db.flights.filter (fun f => f.flight_number == fn) = [] →
      update_flight_info db fn (FlightField.statusField ns) =
        (db, ["Flight not found"])) := by
  have halldep : (db.flights.filter (fun f => f.flight_number == fn)).all
      (fun f => flightChecks f.status f.origin_id f.destination_id) = true := by
    rw [List.all_eq_true]
    intro f hfmem
    exact hokAll f (List.mem_filter.mp hfmem).1
  have hallst : (db.flights.filter (fun f => f.flight_number == fn)).all
      (fun f => flightChecks ns f.origin_id f.destination_id) = true := by
    rw [List.all_eq_true]
    intro f hfmem
    have hof := hokAll f (List.mem_filter.mp hfmem).1
    rw [flightChecks, Bool.and_eq_true] at hof
    rw [flightChecks, Bool.and_eq_true]
    exact ⟨hns, hof.2⟩
  refine ⟨?_, ?_, ?_, ?_⟩
  · intro hne
    simp only [update_flight_info]
    rw [hs]
    dsimp only
    rw [halldep, if_pos rfl, if_pos (List.length_pos.mpr hne)]
  · intro hnil
    simp only [update_flight_info]
    rw [hs]
    dsimp only
    rw [halldep, if_pos rfl, if_neg (by rw [hnil]; simp)]
  · intro hne
    simp only [update_flight_info]
    rw [hallst, if_pos rfl, if_pos (List.length_pos.mpr hne)]
  · intro hnil
    simp only [update_flight_info]
    rw [hallst, if_pos rfl, if_neg (by rw [hnil]; simp)]

theorem C6_witness :
    update_flight_info (DB.mk [] []
        [⟨1, "BA1", 1, 2, "2025-01-01 10:00:00", "Scheduled"⟩,
         ⟨2, "BA1", 2, 3, "2025-02-02 10:00:00", "Scheduled"⟩,
         ⟨3, "BA2", 1, 3, "2025-03-03 10:00:00", "Scheduled"⟩] []) "BA1"
        (FlightField.departureTime "2026-05-05 09:30") =
      (DB.mk [] []
        [⟨1, "BA1", 1, 2, "2026-05-05 09:30:00", "Scheduled"⟩,
         ⟨2, "BA1", 2, 3, "2026-05-05 09:30:00", "Scheduled"⟩,
         ⟨3, "BA2", 1, 3, "2025-03-03 10:00:00", "Scheduled"⟩] [],
       ["Flight updated successfully"]) ∧
    update_flight_info (DB.mk [] []
        [⟨1, "BA1", 1, 2, "2025-01-01 10:00:00", "Scheduled"⟩,
         ⟨2, "BA1", 2, 3, "2025-02-02 10:00:00", "Scheduled"⟩,
         ⟨3, "BA2", 1, 3, "2025-03-03 10:00:00", "Scheduled"⟩] []) "ZZ9"
        (FlightField.departureTime "2026-05-05 09:30") =
      (DB.mk [] []
        [⟨1, "BA1", 1, 2, "2025-01-01 10:00:00", "Scheduled"⟩,
         ⟨2, "BA1", 2, 3, "2025-02-02 10:00:00", "Scheduled"⟩,
         ⟨3, "BA2", 1, 3, "2025-03-03 10:00:00", "Scheduled"⟩] [],
       ["Flight not found"]) := by
  have h1 := C6_update_flight_matches_by_flight_number (DB.mk [] []
    [⟨1, "BA1", 1, 2, "2025-01-01 10:00:00", "Scheduled"⟩,
     ⟨2, "BA1", 2, 3, "2025-02-02 10:00:00", "Scheduled"⟩,
     ⟨3, "BA2", 1, 3, "2025-03-03 10:00:00", "Scheduled"⟩] []) "BA1" "2026-05-05 09:30"
    "Delayed" ⟨2026, 5, 5, 9, 30⟩ (by decide) (by decide) (by decide)
  have h2 := C6_update_flight_matches_by_flight_number (DB.mk [] []
    [⟨1, "BA1", 1, 2, "2025-01-01 10:00:00", "Scheduled"⟩,
     ⟨2, "BA1", 2, 3, "2025-02-02 10:00:00", "Scheduled"⟩,
     ⟨3, "BA2", 1, 3, "2025-03-03 10:00:00", "Scheduled"⟩] []) "ZZ9" "2026-05-05 09:30"
    "Delayed" ⟨2026, 5, 5, 9, 30⟩ (by decide) (by decide) (by decide)
  constructor
  · have := h1.1 (by decide)
    rw [this]
    rfl
  · have := h2.2.1 (by decide)
    rw [this]

/-- C7: for any two existing destinations with distinct ids and any departure
string accepted by the `%Y-%m-%d %H:%M` parser, `add_flight` (whose status
argument is always the default "Scheduled") succeeds, and the inserted row is
present in the flights table with status "Scheduled", the requested flight
number, origin, destination and the normalised departure time. -/
theorem C7_add_flight_defaults_to_scheduled (db : DB) (d1 d2 : Destination)
    (fn s : String) (dt : PyDateTime)
    (h1 : d1 ∈ db.destinations) (h2 : d2 ∈ db.destinations)
    (hne : d1.destination_id ≠ d2.destination_id)
    (hs : strptimeYmdHm s = some dt) :
    (add_new_flight db fn d1.destination_id d2.destination_id s).2 =
      ["Flight added successfully"] ∧
    ∃ f ∈ (add_new_flight db fn d1.destination_id d2.destination_id s).1.flights,
      f.flight_number = fn ∧ f.status = "Scheduled" ∧
      f.origin_id = d1.destination_id ∧ f.destination_id = d2.destination_id ∧
      f.departure_time = strftimeYmdHms dt 0 := by
  rw [add_new_flight_of_parse_some db fn _ _ hs]
  have hok : sql_insert_flight db fn d1.destination_id d2.destination_id
      (strftimeYmdHms dt 0) "Scheduled" =
      Except.ok { db with flights := db.flights ++
        [⟨nextId (db.flights.map Flight.flight_id), fn, d1.destination_id, d2.destination_id,
          strftimeYmdHms dt 0, "Scheduled"⟩] } := by
    rw [sql_insert_flight_ok_iff]
    exact ⟨by decide, hne, rfl⟩
  rw [hok]
  refine ⟨rfl, ⟨⟨nextId (db.flights.map Flight.flight_id), fn, d1.destination_id,
    d2.destination_id, strftimeYmdHms dt 0, "Scheduled"⟩, ?_, rfl, rfl, rfl, rfl, rfl⟩⟩
  dsimp only
  exact List.mem_append_right _ (List.mem_singleton.mpr rfl)

theorem C7_witness :
    (add_new_flight (DB.mk [] [⟨1, "London", "UK", "LHR"⟩, ⟨2, "Paris", "France", "CDG"⟩]
        [] []) "BA900" 1 2 "2025-06-01 10:00").2 = ["Flight added successfully"] ∧
    ∃ f ∈ (add_new_flight (DB.mk [] [⟨1, "London", "UK", "LHR"⟩, ⟨2, "Paris", "France", "CDG"⟩]
        [] []) "BA900" 1 2 "2025-06-01 10:00").1.flights,
      f.flight_number = "BA900" ∧ f.status = "Scheduled" ∧
      f.origin_id = 1 ∧ f.destination_id = 2 ∧
      f.departure_time = strftimeYmdHms ⟨2025, 6, 1, 10, 0⟩ 0 :=
  C7_add_flight_defaults_to_scheduled
    (DB.mk [] [⟨1, "London", "UK", "LHR"⟩, ⟨2, "Paris", "France", "CDG"⟩] [] [])
    ⟨1, "London", "UK", "LHR"⟩ ⟨2, "Paris", "France", "CDG"⟩ "BA900" "2025-06-01 10:00"
    ⟨2025, 6, 1, 10, 0⟩ (by decide) (by decide) (by decide) (by decide)

theorem filter_key_nil_or_singleton {α : Type} (key : α → Int) (l : List α)
    (hnd : (l.map key).Nodup) (k : Int) :
    l.filter (fun x => key x == k) = [] ∨
      ∃ x, x ∈ l ∧ key x = k ∧ l.filter (fun x => key x == k) = [x] := by
  induction l with
  | nil => exact Or.inl rfl
  | cons a l ih =>
    rw [List.map_cons, List.nodup_cons] at hnd
    obtain ⟨hka, hnd2⟩ := hnd
    by_cases hk : key a = k
    · refine Or.inr ⟨a, List.mem_cons_self _ _, hk, ?_⟩
      rw [List.filter_cons_of_pos (by simp [hk])]
      have hrest : l.filter (fun x => key x == k) = [] := by
        rw [List.filter_eq_nil_iff]
        intro x hx hbeq
        rw [beq_iff_eq] at hbeq
        exact hka (hk ▸ hbeq ▸ List.mem_map_of_mem key hx)
      rw [hrest]
    · rw [List.filter_cons_of_neg (by simp [hk])]
      rcases ih hnd2 with hnil | ⟨x, hxmem, hxk, heq⟩
      · exact Or.inl hnil
      · exact Or.inr ⟨x, List.mem_cons_of_mem _ hxmem, hxk, heq⟩

theorem filter_key_singleton {α : Type} (key : α → Int) (l : List α)
    (hnd : (l.map key).Nodup) (x : α) (hx : x ∈ l) :
    l.filter (fun y => key y == key x) = [x] := by
  rcases filter_key_nil_or_singleton key l hnd (key x) with hnil | ⟨z, _, _, heq⟩
  · exfalso
    have : x ∈ l.filter (fun y => key y == key x) := by
      rw [List.mem_filter]
      exact ⟨hx, by simp⟩
    rw [hnil] at this
    cases this
  · have hxin : x ∈ l.filter (fun y => key y == key x) := by
      rw [List.mem_filter]
      exact ⟨hx, by simp⟩
    rw [heq] at hxin
    rw [List.mem_singleton] at hxin
    rw [heq, hxin]

theorem flatMap_singleton_fun {α β : Type} (g : α → β) (l : List α) :
    (l.flatMap fun a => [g a]) = l.map g := by
  induction l with
  | nil => rfl
  | cons a l ih => rw [List.flatMap_cons, List.map_cons, ih]; rfl

theorem leftJoinFlights_eval (flights : List Flight)
    (hfn : (flights.map Flight.flight_id).Nodup) (a : Assignment) :
    leftJoinFlights flights a =
      [(a, (flights.filter (fun f => f.flight_id == a.flight_id)).head?)] := by
  unfold leftJoinFlights
  dsimp only
  rcases filter_key_nil_or_singleton Flight.flight_id flights hfn a.flight_id
      with hnil | ⟨f0, _, _, hsing⟩
  · rw [hnil]
    rfl
  · rw [hsing]
    rfl

theorem head?_filter_future (flights : List Flight) (now : String)
    (hfn : (flights.map Flight.flight_id).Nodup) (a : Assignment) :
    (match (flights.filter (fun f => f.flight_id == a.flight_id)).head? with
      | some f => decide (now < f.departure_time)
      | none => false) =
      flights.any (fun f => f.flight_id == a.flight_id && decide (now < f.departure_time)) := by
  rw [← List.any_filter]
  rcases filter_key_nil_or_singleton Flight.flight_id flights hfn a.flight_id
      with hnil | ⟨f0, _, _, hsing⟩
  · rw [hnil]
    rfl
  · rw [hsing]
    simp

theorem pilotSummaryRow_counts (db : DB) (now : String)
    (hfn : (db.flights.map Flight.flight_id).Nodup) (p : Pilot) :
    (pilotSummaryRow db now p).flight_count =
      (db.assignments.filter (fun a => a.pilot_id == p.pilot_id)).length ∧
    (pilotSummaryRow db now p).upcoming_flights =
      ((db.assignments.filter (fun a => a.pilot_id == p.pilot_id)).filter
        (fun a => db.flights.any (fun f => f.flight_id == a.flight_id &&
          decide (now < f.departure_time)))).length := by
  unfold pilotSummaryRow
  dsimp only
  have hstep : leftJoinFlights db.flights =
      (fun a => [(a, (db.flights.filter (fun f => f.flight_id == a.flight_id)).head?)]) :=
    funext (leftJoinFlights_eval db.flights hfn)
  rw [hstep, flatMap_singleton_fun, List.length_map, List.filter_map, List.length_map]
  refine ⟨rfl, ?_⟩
  congr 1
  apply List.filter_congr
  intro a _
  exact head?_filter_future db.flights now hfn a

/-- C8: `pilot_flight_summary` returns exactly one row per pilot (the ids are
primary keys, hence the uniqueness hypotheses); each pilot's row carries the
pilot's total assignment count and the count of assignments whose flight
departs strictly after the store's current time; pilots without assignments
are still present, with both counts zero, thanks to the left joins. -/
theorem C8_pilot_flight_summary (db : DB) (now : String)
    (hpn : (db.pilots.map Pilot.pilot_id).Nodup)
    (hfn : (db.flights.map Flight.flight_id).Nodup) :
    (get_pilot_flight_count db now).length = db.pilots.length ∧
    (∀ p ∈ db.pilots,
      (get_pilot_flight_count db now).filter (fun r => r.pilot_id == p.pilot_id) =
        [pilotSummaryRow db now p] ∧
      (pilotSummaryRow db now p).name = p.name ∧
      (pilotSummaryRow db now p).license_id = p.license_id ∧
      (pilotSummaryRow db now p).flight_count =
        (db.assignments.filter (fun a => a.pilot_id == p.pilot_id)).length ∧
      (pilotSummaryRow db now p).upcoming_flights =
        ((db.assignments.filter (fun a => a.pilot_id == p.pilot_id)).filter
          (fun a => db.flights.any (fun f => f.flight_id == a.flight_id &&
            decide (now < f.departure_time)))).length) ∧
    (∀ p ∈ db.pilots, db.assignments.filter (fun a => a.pilot_id == p.pilot_id) = [] →
      (pilotSummaryRow db now p).flight_count = 0 ∧
      (pilotSummaryRow db now p).upcoming_flights = 0) := by
  have hlen : (get_pilot_flight_count db now).length = db.pilots.length := by
    unfold get_pilot_flight_count
    rw [List.length_mergeSort, List.length_map]
  refine ⟨hlen, ?_, ?_⟩
  · intro p hp
    have hcounts := pilotSummaryRow_counts db now hfn p
    refine ⟨?_, rfl, rfl, hcounts.1, hcounts.2⟩
    have hperm : List.Perm (get_pilot_flight_count db now)
        (db.pilots.map (pilotSummaryRow db now)) :=
      List.mergeSort_perm _ _
    have hfperm := hperm.filter (fun r => r.pilot_id == p.pilot_id)
    have hmap : (db.pilots.map (pilotSummaryRow db now)).filter
        (fun r => r.pilot_id == p.pilot_id) = [pilotSummaryRow db now p] := by
      rw [List.filter_map]
      have hcongr : db.pilots.filter
          ((fun r => r.pilot_id == p.pilot_id) ∘ pilotSummaryRow db now) =
          db.pilots.filter (fun q => q.pilot_id == p.pilot_id) := by
        apply List.filter_congr
        intro q _
        rfl
      rw [hcongr, filter_key_singleton Pilot.pilot_id db.pilots hpn p hp]
      rfl
    rw [hmap] at hfperm
    exact List.perm_singleton.mp hfperm
  · intro p hp hnil
    have hcounts := pilotSummaryRow_counts db now hfn p
    constructor
    · rw [hcounts.1, hnil]
      rfl
    · rw [hcounts.2, hnil]
      rfl

theorem C8_witness :
    (get_pilot_flight_count (DB.mk [⟨1, "Ann", "L1", 5⟩, ⟨2, "Bob", "L2", 9⟩] []
        [⟨1, "BA1", 1, 2, "2025-06-01 10:00:00", "Scheduled"⟩]
        [⟨1, 1, 1, "2025-01-01 09:00:00"⟩]) "2025-03-08 00:00:00").length = 2 ∧
    (get_pilot_flight_count (DB.mk [⟨1, "Ann", "L1", 5⟩, ⟨2, "Bob", "L2", 9⟩] []
        [⟨1, "BA1", 1, 2, "2025-06-01 10:00:00", "Scheduled"⟩]
        [⟨1, 1, 1, "2025-01-01 09:00:00"⟩]) "2025-03-08 00:00:00").filter
        (fun r => r.pilot_id == 2) =
      [pilotSummaryRow (DB.mk [⟨1, "Ann", "L1", 5⟩, ⟨2, "Bob", "L2", 9⟩] []
        [⟨1, "BA1", 1, 2, "2025-06-01 10:00:00", "Scheduled"⟩]
        [⟨1, 1, 1, "2025-01-01 09:00:00"⟩]) "2025-03-08 00:00:00" ⟨2, "Bob", "L2", 9⟩] ∧
    (pilotSummaryRow (DB.mk [⟨1, "Ann", "L1", 5⟩, ⟨2, "Bob", "L2", 9⟩] []
        [⟨1, "BA1", 1, 2, "2025-06-01 10:00:00", "Scheduled"⟩]
        [⟨1, 1, 1, "2025-01-01 09:00:00"⟩]) "2025-03-08 00:00:00"
        ⟨2, "Bob", "L2", 9⟩).flight_count = 0 ∧
    (pilotSummaryRow (DB.mk [⟨1, "Ann", "L1", 5⟩, ⟨2, "Bob", "L2", 9⟩] []
        [⟨1, "BA1", 1, 2, "2025-06-01 10:00:00", "Scheduled"⟩]
        [⟨1, 1, 1, "2025-01-01 09:00:00"⟩]) "2025-03-08 00:00:00"
        ⟨2, "Bob", "L2", 9⟩).upcoming_flights = 0 := by
  have h := C8_pilot_flight_summary (DB.mk [⟨1, "Ann", "L1", 5⟩, ⟨2, "Bob", "L2", 9⟩] []
    [⟨1, "BA1", 1, 2, "2025-06-01 10:00:00", "Scheduled"⟩]
    [⟨1, 1, 1, "2025-01-01 09:00:00"⟩]) "2025-03-08 00:00:00" (by decide) (by decide)
  have h2 := h.2.1 ⟨2, "Bob", "L2", 9⟩ (by decide)
  have h3 := h.2.2 ⟨2, "Bob", "L2", 9⟩ (by decide) (by decide)
  exact ⟨h.1, h2.1, h3.1, h3.2⟩

theorem dChar_isDigit (n : Nat) (h : n < 10) : (dChar n).isDigit = true := by
  interval_cases n <;> decide

theorem dChar_val (n : Nat) (h : n < 10) : digitVal (dChar n) = n := by
  interval_cases n <;> decide

theorem dChar_not_ws (n : Nat) (h : n < 10) : (dChar n).isWhitespace = false := by
  interval_cases n <;> decide

theorem take4Digits_dChars (a b c d : Nat) (rest : List Char)
    (ha : a < 10) (hb : b < 10) (hc : c < 10) (hd : d < 10) :
    take4Digits (dChar a :: dChar b :: dChar c :: dChar d :: rest) =
      some (1000 * a + 100 * b + 10 * c + d, rest) := by
  unfold take4Digits
  dsimp only
  rw [dChar_isDigit a ha, dChar_isDigit b hb, dChar_isDigit c hc, dChar_isDigit d hd]
  rw [dChar_val a ha, dChar_val b hb, dChar_val c hc, dChar_val d hd]
  simp

theorem take1or2_dChars (a b : Nat) (rest : List Char) (ha : a < 10) (hb : b < 10) :
    take1or2Digits (dChar a :: dChar b :: rest) = some (10 * a + b, rest) := by
  unfold take1or2Digits
  dsimp only
  rw [dChar_isDigit a ha, dChar_isDigit b hb, dChar_val a ha, dChar_val b hb]
  simp

theorem lit_self (c : Char) (rest : List Char) : lit c (c :: rest) = some rest := by
  unfold lit
  simp

theorem takeWs_space (a : Nat) (rest : List Char) (ha : a < 10) :
    takeWs (' ' :: dChar a :: rest) = some (dChar a :: rest) := by
  unfold takeWs
  dsimp only
  rw [show ' '.isWhitespace = true from rfl]
  rw [List.dropWhile_cons, dChar_not_ws a ha]
  simp

theorem daysInMonth_le (y m : Nat) : daysInMonth y m ≤ 31 := by
  unfold daysInMonth
  split
  · split <;> omega
  · split <;> omega

theorem strptime_of_padded (y m d h mi : Nat)
    (hy1 : 1000 ≤ y) (hy2 : y ≤ 9999) (hm1 : 1 ≤ m) (hm2 : m ≤ 12)
    (hd1 : 1 ≤ d) (hd2 : d ≤ daysInMonth y m) (hh : h ≤ 23) (hmi : mi ≤ 59) :
    strptimeYmdHm (fmtYmdHm ⟨y, m, d, h, mi⟩) = some ⟨y, m, d, h, mi⟩ := by
  have hdm := daysInMonth_le y m
  have hfmtList : (fmtYmdHm ⟨y, m, d, h, mi⟩).toList =
      dChar (y / 1000) :: dChar (y / 100 % 10) :: dChar (y / 10 % 10) :: dChar (y % 10) ::
      '-' :: dChar (m / 10) :: dChar (m % 10) :: '-' :: dChar (d / 10) :: dChar (d % 10) ::
      ' ' :: dChar (h / 10) :: dChar (h % 10) :: ':' :: dChar (mi / 10) :: dChar (mi % 10) ::
      [] := by
    have hy : yearStr y = String.mk
        [dChar (y / 1000), dChar (y / 100 % 10), dChar (y / 10 % 10), dChar (y % 10)] := by
      unfold yearStr
      rw [if_neg (by omega), if_neg (by omega), if_neg (by omega)]
    simp [fmtYmdHm, pad2, hy, String.toList]
  unfold strptimeYmdHm
  rw [hfmtList]
  rw [take4Digits_dChars (y / 1000) (y / 100 % 10) (y / 10 % 10) (y % 10) _
        (by omega) (by omega) (by omega) (by omega),
      show 1000 * (y / 1000) + 100 * (y / 100 % 10) + 10 * (y / 10 % 10) + y % 10 = y from
        by omega]
  simp only [Option.bind_eq_bind, Option.some_bind]
  rw [lit_self]
  simp only [Option.some_bind]
  rw [take1or2_dChars (m / 10) (m % 10) _ (by omega) (by omega),
      show 10 * (m / 10) + m % 10 = m from by omega]
  simp only [Option.some_bind]
  rw [lit_self]
  simp only [Option.some_bind]
  rw [take1or2_dChars (d / 10) (d % 10) _ (by omega) (by omega),
      show 10 * (d / 10) + d % 10 = d from by omega]
  simp only [Option.some_bind]
  rw [takeWs_space (h / 10) _ (by omega)]
  simp only [Option.some_bind]
  rw [take1or2_dChars (h / 10) (h % 10) _ (by omega) (by omega),
      show 10 * (h / 10) + h % 10 = h from by omega]
  simp only [Option.some_bind]
  rw [lit_self]
  simp only [Option.some_bind]
  rw [take1or2_dChars (mi / 10) (mi % 10) _ (by omega) (by omega),
      show 10 * (mi / 10) + mi % 10 = mi from by omega]
  simp only [Option.some_bind]
  rw [if_pos ⟨trivial, by omega, by omega, by omega, by omega, hd2, hh, hmi⟩]
  rfl

theorem strftime_appends_seconds (dt : PyDateTime) :
    strftimeYmdHms dt 0 = fmtYmdHm dt ++ ":00" := by
  show (fmtYmdHm dt ++ ":") ++ pad2 0 = fmtYmdHm dt ++ ":00"
  rw [show pad2 0 = "00" from by decide, String.append_assoc]
  rfl

theorem endsWithSeconds_strftime (dt : PyDateTime) (sec : Nat) (hsec : sec ≤ 59) :
    endsWithSeconds (strftimeYmdHms dt sec) = true := by
  unfold endsWithSeconds
  have hsplit : (strftimeYmdHms dt sec).toList =
      (fmtYmdHm dt).toList ++ ':' :: dChar (sec / 10) :: dChar (sec % 10) :: [] := by
    show ((fmtYmdHm dt ++ ":") ++ pad2 sec).toList = _
    simp [pad2, String.toList]
  rw [hsplit, List.reverse_append,
      show (':' :: dChar (sec / 10) :: dChar (sec % 10) :: []).reverse =
        dChar (sec % 10) :: dChar (sec / 10) :: ':' :: [] from by simp]
  rw [List.cons_append, List.cons_append, List.cons_append, List.nil_append]
  dsimp only
  rw [dChar_isDigit (sec / 10) (by omega), dChar_isDigit (sec % 10) (by omega)]
  rfl

theorem add_new_flight_flights_cases (db : DB) (fn : String) (o d : Int) (dep : String) :
    (add_new_flight db fn o d dep).1.flights = db.flights ∨
    ∃ dt, (add_new_flight db fn o d dep).1.flights = db.flights ++
      [⟨nextId (db.flights.map Flight.flight_id), fn, o, d, strftimeYmdHms dt 0,
        "Scheduled"⟩] := by
  unfold add_new_flight
  split
  · exact Or.inl rfl
  · next dt hdt =>
      split
      · exact Or.inl rfl
      · next db2 heq =>
          rw [sql_insert_flight_ok_iff] at heq
          obtain ⟨-, -, rfl⟩ := heq
          exact Or.inr ⟨dt, rfl⟩

theorem update_flight_info_flights_cases (db : DB) (fn : String) (ch : FlightField) :
    (update_flight_info db fn ch).1.flights = db.flights ∨
    (∃ dt, (update_flight_info db fn ch).1.flights = db.flights.map (fun f =>
      if f.flight_number == fn then { f with departure_time := strftimeYmdHms dt 0 }
      else f)) ∨
    (∃ ns, (update_flight_info db fn ch).1.flights = db.flights.map (fun f =>
      if f.flight_number == fn then { f with status := ns } else f)) := by
  cases ch with
  | departureTime s =>
    simp only [update_flight_info]
    split
    · exact Or.inl rfl
    · next dt hdt =>
        split
        · split
          · exact Or.inr (Or.inl ⟨dt, rfl⟩)
          · exact Or.inl rfl
        · exact Or.inl rfl
  | statusField ns =>
    simp only [update_flight_info]
    split
    · split
      · exact Or.inr (Or.inr ⟨ns, rfl⟩)
      · exact Or.inl rfl
    · exact Or.inl rfl

theorem delete_flight_flights_cases (db : DB) (fn : String) :
    (delete_flight db fn).1.flights =
      db.flights.filter (fun f => !(f.flight_number == fn)) ∨
    (delete_flight db fn).1.flights = db.flights := by
  unfold delete_flight
  dsimp only
  split
  · exact Or.inl rfl
  · exact Or.inr rfl

theorem reach_timestampsNormalized (db : DB) (h : Reach db) : TimestampsNormalized db := by
  induction h with
  | init =>
    exact ⟨fun f hf => absurd hf (List.not_mem_nil f), fun a ha => absurd ha (List.not_mem_nil a)⟩
  | step_add_flight db fn o d dep _ ih =>
    obtain ⟨ihf, iha⟩ := ih
    constructor
    · rcases add_new_flight_flights_cases db fn o d dep with heq | ⟨dt, heq⟩
      · rw [heq]; exact ihf
      · rw [heq]
        intro f hf
        rcases List.mem_append.mp hf with hfl | hfr
        · exact ihf f hfl
        · rw [List.mem_singleton] at hfr
          rw [hfr]
          exact endsWithSeconds_strftime dt 0 (by omega)
    · rw [(add_new_flight_frame db fn o d dep).2.2]
      exact iha
  | step_update_flight db fn ch _ ih =>
    obtain ⟨ihf, iha⟩ := ih
    constructor
    · rcases update_flight_info_flights_cases db fn ch with heq | ⟨dt, heq⟩ | ⟨ns, heq⟩
      · rw [heq]; exact ihf
      · rw [heq]
        intro f hf
        obtain ⟨f0, hf0, rfl⟩ := List.mem_map.mp hf
        by_cases hmatch : (f0.flight_number == fn) = true
        · rw [if_pos hmatch]
          exact endsWithSeconds_strftime dt 0 (by omega)
        · rw [if_neg hmatch]
          exact ihf f0 hf0
      · rw [heq]
        intro f hf
        obtain ⟨f0, hf0, rfl⟩ := List.mem_map.mp hf
        by_cases hmatch : (f0.flight_number == fn) = true
        · rw [if_pos hmatch]
          exact ihf f0 hf0
        · rw [if_neg hmatch]
          exact ihf f0 hf0
    · rw [(update_flight_info_frame db fn ch).2.2]
      exact iha
  | step_assign db fid pid date now nsec hsec _ ih =>
    obtain ⟨ihf, iha⟩ := ih
    constructor
    · rw [(assign_pilot_frame db fid pid date now nsec).2.2]
      exact ihf
    · rcases assign_pilot_assignments_cases db fid pid date now nsec with heq | ⟨dd, hdd, -, heq⟩
      · rw [heq]; exact iha
      · rw [heq]
        intro a ha
        rcases List.mem_append.mp ha with hal | har
        · exact iha a hal
        · rw [List.mem_singleton] at har
          rw [har]
          rcases hdd with rfl | ⟨dt, rfl⟩
          · exact endsWithSeconds_strftime now nsec hsec
          · exact endsWithSeconds_strftime dt 0 (by omega)
  | step_dest db act _ ih =>
    obtain ⟨ihf, iha⟩ := ih
    exact ⟨(manage_destinations_frame db act).2.1 ▸ ihf,
           (manage_destinations_frame db act).2.2 ▸ iha⟩
  | step_pilot db act _ ih =>
    obtain ⟨ihf, iha⟩ := ih
    exact ⟨(manage_pilots_frame db act).2.1 ▸ ihf,
           (manage_pilots_frame db act).2.2 ▸ iha⟩
  | step_delete_flight db fn _ ih =>
    obtain ⟨ihf, iha⟩ := ih
    constructor
    · rcases delete_flight_flights_cases db fn with heq | heq
      · rw [heq]
        intro f hf
        exact ihf f (List.mem_filter.mp hf).1
      · rw [heq]; exact ihf
    · rw [(delete_flight_frame db fn).2.2]
      exact iha
  | step_delete_assignment db aid _ ih =>
    obtain ⟨ihf, iha⟩ := ih
    constructor
    · rw [(delete_pilot_assignment_cases db aid).1.2.2]
      exact ihf
    · rcases (delete_pilot_assignment_cases db aid).2 with heq | heq
      · rw [heq]
        intro a ha
        exact iha a (List.mem_filter.mp ha).1
      · rw [heq]; exact iha
  | step_populate db _ ih =>
    refine populate_sample_data_preserves TimestampsNormalized ?_ ?_ ?_ ?_ db ih
    · intro s p s2 _ heq hP
      rw [sql_insert_pilot_ok_iff] at heq
      obtain ⟨-, rfl⟩ := heq
      exact hP
    · intro s dd s2 _ heq hP
      rw [sql_insert_destination_ok_iff] at heq
      obtain ⟨-, rfl⟩ := heq
      exact hP
    · intro s f s2 hfmem heq hP
      rw [sql_insert_flight_ok_iff] at heq
      obtain ⟨-, -, rfl⟩ := heq
      obtain ⟨hPf, hPa⟩ := hP
      refine ⟨?_, hPa⟩
      intro g hg
      rcases List.mem_append.mp hg with hgl | hgr
      · exact hPf g hgl
      · rw [List.mem_singleton] at hgr
        rw [hgr]
        have hlit : ∀ x ∈ sampleFlights, endsWithSeconds x.2.2.2.1 = true := by decide
        exact hlit f hfmem
    · intro s a s2 hamem heq hP
      rw [sql_insert_assignment_ok_iff] at heq
      obtain ⟨-, rfl⟩ := heq
      obtain ⟨hPf, hPa⟩ := hP
      refine ⟨hPf, ?_⟩
      intro g hg
      rcases List.mem_append.mp hg with hgl | hgr
      · exact hPa g hgl
      · rw [List.mem_singleton] at hgr
        rw [hgr]
        have hlit : ∀ x ∈ sampleAssignments, endsWithSeconds x.2.2 = true := by decide
        exact hlit a hamem

/-- C10 counterexample: the claim fails as stated.  The input
"0500-01-02 03:04" is a YYYY-MM-DD HH:MM string (four-digit year), it is
accepted by the parser, and `add_flight` succeeds — but the stored value is
"500-01-02 03:04:00": `strftime` renders the year unpadded, so the stored
timestamp is NOT the input with ":00" appended and is not in the form
YYYY-MM-DD HH:MM:SS (three-digit year). -/
theorem C10_counterexample_year_padding_lost :
    strptimeYmdHm "0500-01-02 03:04" = some ⟨500, 1, 2, 3, 4⟩ ∧
    (add_new_flight emptyDB "F1" 1 2 "0500-01-02 03:04").2 =
      ["Flight added successfully"] ∧
    (add_new_flight emptyDB "F1" 1 2 "0500-01-02 03:04").1.flights =
      [⟨1, "F1", 1, 2, "500-01-02 03:04:00", "Scheduled"⟩] ∧
    "500-01-02 03:04:00" ≠ "0500-01-02 03:04" ++ ":00" := by
  refine ⟨by decide, rfl, rfl, by decide⟩

/-- C10 (amended): for user-supplied timestamps in the zero-padded form
YYYY-MM-DD HH:MM whose year is at least 1000, parsing succeeds and the stored
value is exactly the input with ":00" appended (for years below 1000 the
year's leading zeros are dropped by `strftime`, as the counterexample shows);
the blank-date default of `assign_pilot` is the current time rendered with
seconds; and in every reachable state every stored departure or assignment
timestamp ends with an explicit two-digit seconds field. -/
theorem C10_timestamps_normalized (dt : PyDateTime) (db : DB)
    (hy1 : 1000 ≤ dt.year) (hy2 : dt.year ≤ 9999)
    (hm1 : 1 ≤ dt.month) (hm2 : dt.month ≤ 12)
    (hd1 : 1 ≤ dt.day) (hd2 : dt.day ≤ daysInMonth dt.year dt.month)
    (hh : dt.hour ≤ 23) (hmi : dt.minute ≤ 59)
    (hdb : Reach db) :
    strptimeYmdHm (fmtYmdHm dt) = some dt ∧
    strftimeYmdHms dt 0 = fmtYmdHm dt ++ ":00" ∧
    TimestampsNormalized db :=
  ⟨strptime_of_padded dt.year dt.month dt.day dt.hour dt.minute
    hy1 hy2 hm1 hm2 hd1 hd2 hh hmi,
   strftime_appends_seconds dt,
   reach_timestampsNormalized db hdb⟩

theorem C10_witness :
    strptimeYmdHm (fmtYmdHm ⟨2025, 3, 10, 10, 0⟩) = some ⟨2025, 3, 10, 10, 0⟩ ∧
    strftimeYmdHms ⟨2025, 3, 10, 10, 0⟩ 0 = fmtYmdHm ⟨2025, 3, 10, 10, 0⟩ ++ ":00" ∧
    TimestampsNormalized emptyDB :=
  C10_timestamps_normalized ⟨2025, 3, 10, 10, 0⟩ emptyDB
    (by decide) (by decide) (by decide) (by decide) (by decide) (by decide)
    (by decide) (by decide) Reach.init

end FM
